import Mathlib

set_option maxHeartbeats 1000000

/-
Verification development for the Healthcare Translator frontend
(src/frontend/App.js). The App component is a single React function
component; its session state is a collection of useState hooks plus one
useRef. We embed that state as the structure AppState below and each
event handler of the component as a pure state-transition function,
translated line by line from the source.

A central point of fidelity: the recognition.onresult handler is an arrow
function created inside startListening. It closes over the value the
transcript state variable had on the render in which startListening ran,
and it is never re-created afterwards, so every later invocation of the
handler still reads that captured value (the JS line
  let finalText = transcript;
reads the captured binding, not the current state). We model this by
storing the captured transcript inside the Recognition value created by
startListening.
-/

namespace HealthcareTranslator

/-- A language catalog entry as served by the backend languages endpoint. -/
structure Language where
  code : String
  name : String
  deriving DecidableEq

/-- One speech-recognition result: the text of its best alternative (the
source reads res[0].transcript) and its finality flag res.isFinal. -/
structure SpeechResult where
  transcript : String
  isFinal : Bool
  deriving DecidableEq

/-- One onresult event: event.resultIndex and the full ordered result list
event.results of the recognition session. -/
structure SpeechEvent where
  resultIndex : Nat
  results : List SpeechResult
  deriving DecidableEq

/-- One SpeechRecognition instance created by startListening. The id
distinguishes instances; capturedTranscript is the value of the transcript
state variable that the instance's onresult handler closed over when the
instance was created. -/
structure Recognition where
  id : Nat
  capturedTranscript : String
  deriving DecidableEq

/-- The session state of the App component: the seven useState hooks
(listening, transcript, translated, audioUrl, languages, targetLang,
loading) and the recognitionRef useRef. liveRecognitions is environment
bookkeeping, not a component field: it lists the recognition instances
that have been started and neither stopped nor naturally ended, so that
statements about how many capture sessions are live can be made.
nextRecognitionId feeds fresh ids to new instances. -/
structure AppState where
  listening : Bool
  transcript : String
  translated : String
  audioUrl : String
  languages : List Language
  targetLang : String
  loading : Bool
  recognitionRef : Option Recognition
  liveRecognitions : List Recognition
  nextRecognitionId : Nat
  deriving DecidableEq

/-- The backend base address, const BACKEND in the source. -/
def BACKEND : String := "http://127.0.0.1:8000"

/-- The initial state of the component: the useState initial values
(false, "", "", "", [], "fr", false) and an empty ref. -/
def initialState : AppState :=
  { listening := false
    transcript := ""
    translated := ""
    audioUrl := ""
    languages := []
    targetLang := "fr"
    loading := false
    recognitionRef := none
    liveRecognitions := []
    nextRecognitionId := 0 }

/-- The loop body of the onresult handler: walk the results, appending the
text of each final result plus a space to finalText and the text of each
non-final result to interim, exactly as the source's for loop does. -/
def processSegments : List SpeechResult → String → String → String × String
  | [], finalText, interim => (finalText, interim)
  | r :: rs, finalText, interim =>
    if r.isFinal then processSegments rs (finalText ++ r.transcript ++ " ") interim
    else processSegments rs finalText (interim ++ r.transcript)

/-- The transcript value computed by one onresult invocation. The source
initialises finalText to the captured transcript binding, loops i from
event.resultIndex to event.results.length (that is, over
results.drop resultIndex, in order), and stores finalText + interim. -/
def onresultTranscript (captured : String) (e : SpeechEvent) : String :=
  let p := processSegments (e.results.drop e.resultIndex) captured ""
  p.1 ++ p.2

/-- Firing the onresult handler of a given recognition instance: the
handler overwrites the transcript state with the value computed from its
own captured transcript and the event. -/
def fireOnResult (handle : Recognition) (e : SpeechEvent) (s : AppState) : AppState :=
  { s with transcript := onresultTranscript handle.capturedTranscript e }

/-- Outcome of startListening: either the browser lacks the capability
(the source alerts and returns) or a recognition was created and started. -/
inductive StartOutcome where
  | capabilityUnavailable
  | started
  deriving DecidableEq

/-- startListening: if no SpeechRecognition constructor exists, alert and
leave the state unchanged. Otherwise create a recognition (whose onresult
handler captures the current transcript), start it, store it in
recognitionRef and set listening. The source performs no check of the
current listening state and never stops a previously stored instance. -/
def startListening (srAvailable : Bool) (s : AppState) : StartOutcome × AppState :=
  if srAvailable then
    let handle : Recognition := ⟨s.nextRecognitionId, s.transcript⟩
    (StartOutcome.started,
      { s with
          recognitionRef := some handle
          liveRecognitions := handle :: s.liveRecognitions
          listening := true
          nextRecognitionId := s.nextRecognitionId + 1 })
  else (StartOutcome.capabilityUnavailable, s)

/-- stopListening: if recognitionRef.current is set, stop that instance
(it ceases to be live) and null the ref; in every case set listening to
false. -/
def stopListening (s : AppState) : AppState :=
  match s.recognitionRef with
  | some handle =>
    { s with
        liveRecognitions := s.liveRecognitions.filter (fun r => r.id != handle.id)
        recognitionRef := none
        listening := false }
  | none => { s with listening := false }

/-- Environment step: a recognition instance has errored or naturally
ended, so it is no longer live. This models the browser side only; the
component code that runs in reaction is fireOnError / fireOnEnd below. -/
def sourceEnded (handle : Recognition) (s : AppState) : AppState :=
  { s with liveRecognitions := s.liveRecognitions.filter (fun r => r.id != handle.id) }

/-- The onerror handler: the source installs recognition.onerror as a call
to stopListening; the erroring instance itself has also ended. -/
def fireOnError (handle : Recognition) (s : AppState) : AppState :=
  stopListening (sourceEnded handle s)

/-- The onend handler: the source installs recognition.onend as
setListening(false) only; the ended instance is gone from the environment
but recognitionRef is left untouched. -/
def fireOnEnd (handle : Recognition) (s : AppState) : AppState :=
  { sourceEnded handle s with listening := false }

/-- The JSON body sent to the translate endpoint by handleTranslate. -/
structure TranslatePayload where
  text : String
  target_lang : String
  source_lang : String
  deriving DecidableEq

/-- Outcome of the synchronous prefix of handleTranslate: either the
trimmed transcript was empty (the source alerts and returns without any
network call) or exactly one outbound request with the given payload was
issued and the call is now awaiting the response. -/
inductive TranslateBeginOutcome where
  | emptyInput
  | requestIssued (payload : TranslatePayload)
  deriving DecidableEq

/-- The trim applied by the guard in handleTranslate, modelling the JS
String.prototype.trim call: drop leading and trailing whitespace
characters (the common ASCII whitespace set). Defined structurally over
the character data so that it evaluates on concrete inputs. -/
def jsTrim (s : String) : String :=
  ⟨(((s.data.dropWhile Char.isWhitespace).reverse.dropWhile Char.isWhitespace).reverse)⟩

/-- The synchronous prefix of handleTranslate: guard on the trimmed
transcript; on valid input set loading, clear translated and audioUrl, and
issue the fetch with body text = transcript (untrimmed),
target_lang = targetLang, source_lang = "auto". -/
def translateBegin (s : AppState) : TranslateBeginOutcome × AppState :=
  if jsTrim s.transcript = "" then (TranslateBeginOutcome.emptyInput, s)
  else
    (TranslateBeginOutcome.requestIssued ⟨s.transcript, s.targetLang, "auto"⟩,
      { s with loading := true, translated := "", audioUrl := "" })

/-- The response of one translate request as the handler observes it: a
success body with translated_text and a relative audio_url, a non-2xx
response whose JSON body may carry an error field, or a transport error
(the fetch or json call threw). -/
inductive TranslateResponse where
  | success (translated_text : String) (audio_url : String)
  | httpError (error : Option String)
  | transportError
  deriving DecidableEq

/-- The continuation of handleTranslate after the response arrives,
applied to whatever the session state is at that moment (the source has no
generation id or staleness check). On success set translated and set
audioUrl to BACKEND concatenated with the relative path; on a non-ok
response alert data.error when it is truthy, else the generic message; on
a transport error alert the generic server-error message; in every case
finally clear loading. The returned Option String is the alert text. -/
def translateComplete (s : AppState) (r : TranslateResponse) : AppState × Option String :=
  match r with
  | TranslateResponse.success t u =>
    ({ s with translated := t, audioUrl := BACKEND ++ u, loading := false }, none)
  | TranslateResponse.httpError err =>
    ({ s with loading := false },
      some (match err with
            | some e => if e = "" then "Translation failed." else e
            | none => "Translation failed."))
  | TranslateResponse.transportError =>
    ({ s with loading := false }, some "Server error. Is the backend running?")

/-- clearAll: reset transcript, translated and audioUrl to empty; nothing
else is touched. -/
def clearAll (s : AppState) : AppState :=
  { s with transcript := "", translated := "", audioUrl := "" }

/-- The translate button carries disabled = loading; this is the only
guard in the program against re-triggering a translation. -/
def translateButtonDisabled (s : AppState) : Bool := s.loading

/-- A session that has captured the word hello and is otherwise initial. -/
def demoReady : AppState := { initialState with transcript := "hello" }

/-- A session whose transcript is whitespace only. -/
def blankState : AppState := { initialState with transcript := "   " }

/-- A session that has captured the phrase hello world. -/
def demoSpoken : AppState := { initialState with transcript := "hello world" }

/-- C1: the spec claims the finalized part of the transcript only grows
while capture is active, so text finalized in an earlier batch is still
present after every later batch. The code violates this: the onresult
handler rebuilds the transcript from the stale transcript value it
captured when startListening ran. Starting from an empty session, a first
batch finalizing hello at index 0 yields transcript "hello ", and a
second batch whose only new segment (resultIndex 1) finalizes world
yields transcript "world ": the earlier finalized "hello " has been
dropped instead of preserved. -/
theorem stale_closure_drops_finalized_text :
  (startListening true initialState).2.recognitionRef = some ⟨0, ""⟩
  ∧ (fireOnResult ⟨0, ""⟩ ⟨0, [⟨"hello", true⟩]⟩
      (startListening true initialState).2).transcript = "hello "
  ∧ (fireOnResult ⟨0, ""⟩ ⟨1, [⟨"hello", true⟩, ⟨"world", true⟩]⟩
      (fireOnResult ⟨0, ""⟩ ⟨0, [⟨"hello", true⟩]⟩
        (startListening true initialState).2)).transcript = "world " :=
  ⟨rfl, rfl, rfl⟩

/-- C9: processing the identical batch with the identical startIndex twice
in succession yields exactly the same session state as processing it once,
and segments before startIndex are never read: the computed transcript
depends only on the segments from startIndex onward. -/
theorem onresult_replay_idempotent :
  (∀ (handle : Recognition) (e : SpeechEvent) (s : AppState),
    fireOnResult handle e (fireOnResult handle e s) = fireOnResult handle e s)
  ∧ (∀ (captured : String) (k : Nat) (pre pre' rs : List SpeechResult),
    pre.length = k → pre'.length = k →
    onresultTranscript captured ⟨k, pre ++ rs⟩ = onresultTranscript captured ⟨k, pre' ++ rs⟩) := by
  constructor
  · intro handle e s
    rfl
  · intro captured k pre pre' rs hk hk'
    subst hk
    simp only [onresultTranscript]
    rw [List.drop_left, ← hk', List.drop_left]

/-- C9 witness: replaying a concrete final batch at startIndex 1 leaves the
state unchanged, and two histories agreeing from index 1 on give the same
transcript. -/
theorem onresult_replay_idempotent_witness :
  (fireOnResult ⟨0, ""⟩ ⟨1, [⟨"a", true⟩, ⟨"b", true⟩]⟩
      (fireOnResult ⟨0, ""⟩ ⟨1, [⟨"a", true⟩, ⟨"b", true⟩]⟩ demoReady)
    = fireOnResult ⟨0, ""⟩ ⟨1, [⟨"a", true⟩, ⟨"b", true⟩]⟩ demoReady)
  ∧ ([SpeechResult.mk "a" true].length = 1
    ∧ [SpeechResult.mk "c" false].length = 1
    ∧ onresultTranscript "" ⟨1, [SpeechResult.mk "a" true] ++ [SpeechResult.mk "b" true]⟩
      = onresultTranscript "" ⟨1, [SpeechResult.mk "c" false] ++ [SpeechResult.mk "b" true]⟩) :=
  ⟨onresult_replay_idempotent.1 ⟨0, ""⟩ ⟨1, [⟨"a", true⟩, ⟨"b", true⟩]⟩ demoReady,
    rfl, rfl,
    onresult_replay_idempotent.2 "" 1 [⟨"a", true⟩] [⟨"c", false⟩] [⟨"b", true⟩] rfl rfl⟩

/-- C5: when the trimmed transcript is empty, handleTranslate alerts and
returns at once: the outcome is emptyInput, no request payload is produced,
and the session state is completely unchanged. -/
theorem emptyInput_no_request (s : AppState) (h : jsTrim s.transcript = "") :
  translateBegin s = (TranslateBeginOutcome.emptyInput, s) := by
  simp [translateBegin, h]

/-- C5 witness: a whitespace-only transcript with target language fr is
rejected as emptyInput with the state untouched. -/
theorem emptyInput_no_request_witness :
  jsTrim blankState.transcript = ""
  ∧ translateBegin blankState = (TranslateBeginOutcome.emptyInput, blankState) :=
  ⟨by decide, emptyInput_no_request blankState (by decide)⟩

/-- C10: clearAll resets exactly transcript, translated and audioUrl to
empty and leaves every other observable field unchanged: listening, the
recognition ref, the live instances, the target language, the language
catalog, the loading flag and the id counter keep their prior values. -/
theorem clearAll_frame (s : AppState) :
  (clearAll s).transcript = ""
  ∧ (clearAll s).translated = ""
  ∧ (clearAll s).audioUrl = ""
  ∧ (clearAll s).listening = s.listening
  ∧ (clearAll s).recognitionRef = s.recognitionRef
  ∧ (clearAll s).liveRecognitions = s.liveRecognitions
  ∧ (clearAll s).targetLang = s.targetLang
  ∧ (clearAll s).languages = s.languages
  ∧ (clearAll s).loading = s.loading
  ∧ (clearAll s).nextRecognitionId = s.nextRecognitionId :=
  ⟨rfl, rfl, rfl, rfl, rfl, rfl, rfl, rfl, rfl, rfl⟩

/-- C2 counterexample: with the transcript hello and target language fr,
calling handleTranslate a second time while the first request is still
awaiting its response issues a second outbound request carrying the same
payload; no rejection of any kind occurs, so the claimed RequestInFlight
rejection and single outbound request are both false. -/
theorem double_submit_two_requests :
  (translateBegin demoReady).1
    = TranslateBeginOutcome.requestIssued ⟨"hello", "fr", "auto"⟩
  ∧ (translateBegin (translateBegin demoReady).2).1
    = TranslateBeginOutcome.requestIssued ⟨"hello", "fr", "auto"⟩ := by
  exact ⟨by decide, by decide⟩

/-- C2 amended: handleTranslate itself enforces no in-flight limit: a
second call while the first request is pending issues a second outbound
request with the same payload instead of being rejected; the only guard in
the program is that submitting sets loading, which disables the translate
button in the UI. -/
theorem submit_no_inflight_guard (s : AppState) (h : ¬ jsTrim s.transcript = "") :
  (translateBegin s).1
    = TranslateBeginOutcome.requestIssued ⟨s.transcript, s.targetLang, "auto"⟩
  ∧ (translateBegin s).2.loading = true
  ∧ translateButtonDisabled (translateBegin s).2 = true
  ∧ (translateBegin (translateBegin s).2).1
    = TranslateBeginOutcome.requestIssued ⟨s.transcript, s.targetLang, "auto"⟩ := by
  simp [translateBegin, translateButtonDisabled, h]

/-- C2 amended witness: the double submission behaviour at the concrete
session with transcript hello and target language fr. -/
theorem submit_no_inflight_guard_witness :
  ¬ jsTrim demoReady.transcript = ""
  ∧ ((translateBegin demoReady).1
      = TranslateBeginOutcome.requestIssued ⟨demoReady.transcript, demoReady.targetLang, "auto"⟩
    ∧ (translateBegin demoReady).2.loading = true
    ∧ translateButtonDisabled (translateBegin demoReady).2 = true
    ∧ (translateBegin (translateBegin demoReady).2).1
      = TranslateBeginOutcome.requestIssued ⟨demoReady.transcript, demoReady.targetLang, "auto"⟩) :=
  ⟨by decide, submit_no_inflight_guard demoReady (by decide)⟩

/-- C3 counterexample: submit with transcript hello, then clearAll before
the response arrives, then let the response with translated text bonjour
and relative path /audio/1.mp3 arrive: the stale completion is applied to
the cleared state, setting translated to bonjour and audioUrl to the
resolved address, so the claimed generation guard does not exist. -/
theorem stale_response_after_clear :
  (clearAll (translateBegin demoReady).2).translated = ""
  ∧ (translateComplete (clearAll (translateBegin demoReady).2)
      (TranslateResponse.success "bonjour" "/audio/1.mp3")).1.translated = "bonjour"
  ∧ (translateComplete (clearAll (translateBegin demoReady).2)
      (TranslateResponse.success "bonjour" "/audio/1.mp3")).1.audioUrl
    = "http://127.0.0.1:8000/audio/1.mp3" := by
  exact ⟨by decide, by decide, by decide⟩

/-- C3 amended: the program carries no generation id and performs no
staleness check: a translate completion is applied to whatever the session
state is when it arrives, so a response arriving after clearAll (or after
any other state change) still sets the translated text and the audio
reference. -/
theorem completion_applied_unconditionally (s : AppState) (t u : String) :
  (translateComplete (clearAll s) (TranslateResponse.success t u)).1.translated = t
  ∧ (translateComplete (clearAll s) (TranslateResponse.success t u)).1.audioUrl
    = BACKEND ++ u
  ∧ (translateComplete s (TranslateResponse.success t u)).1.translated = t
  ∧ (translateComplete s (TranslateResponse.success t u)).1.audioUrl = BACKEND ++ u :=
  ⟨rfl, rfl, rfl, rfl⟩

/-- C4 counterexample: from the initial state, two consecutive calls of
startListening (with the capability available) both return started: the
second is not rejected, a second recognition instance is created and
started, and both instances are live, so the claimed rejection and the
single live handle are both false. -/
theorem double_start_two_handles :
  (startListening true initialState).1 = StartOutcome.started
  ∧ (startListening true (startListening true initialState).2).1 = StartOutcome.started
  ∧ (startListening true (startListening true initialState).2).2.liveRecognitions.length = 2
  ∧ (startListening true (startListening true initialState).2).2.recognitionRef
    = some ⟨1, ""⟩ := by
  exact ⟨rfl, rfl, rfl, rfl⟩

/-- C4 amended: startListening never checks the current listening state:
from any state a second consecutive start succeeds, creates and starts a
second recognition instance, overwrites recognitionRef with it (the first
instance stays live but untracked), and leaves two more live instances
than before; the only protection is the UI showing the stop button instead
of the start button while listening. -/
theorem start_no_listening_guard (s : AppState) :
  (startListening true s).1 = StartOutcome.started
  ∧ (startListening true (startListening true s).2).1 = StartOutcome.started
  ∧ (startListening true (startListening true s).2).2.liveRecognitions.length
    = s.liveRecognitions.length + 2
  ∧ (startListening true (startListening true s).2).2.recognitionRef
    = some ⟨s.nextRecognitionId + 1, s.transcript⟩ := by
  refine ⟨rfl, rfl, ?_, rfl⟩
  simp [startListening]

/-- Filtering out a given instance id twice is the same as doing it once. -/
theorem filter_ne_id_idem (handle : Recognition) (l : List Recognition) :
  (l.filter (fun r => r.id != handle.id)).filter (fun r => r.id != handle.id)
    = l.filter (fun r => r.id != handle.id) := by
  rw [List.filter_filter]
  simp [Bool.and_self]

/-- C6 counterexample: start a session from the initial state and let the
recognition end naturally: the onend handler only clears the listening
flag, so afterwards listening is false while recognitionRef still holds
the ended instance — the handle is not released and the claimed
equivalence of non-null handle and Listening state is false. -/
theorem onend_keeps_handle :
  (fireOnEnd ⟨0, ""⟩ (startListening true initialState).2).listening = false
  ∧ (fireOnEnd ⟨0, ""⟩ (startListening true initialState).2).recognitionRef
    = some ⟨0, ""⟩ := by
  exact ⟨rfl, rfl⟩

/-- C6 amended: the onerror handler forces the listening flag off and
releases the stored handle (it calls stopListening); the onend handler
forces the listening flag off but leaves recognitionRef untouched;
stopListening on an already idle session with no stored handle changes
nothing; and a duplicate onerror or onend callback of the stopped instance
arriving after an explicit stop has no effect. -/
theorem capture_callback_transitions :
  (∀ (handle : Recognition) (s : AppState),
    (fireOnError handle s).listening = false
    ∧ (fireOnError handle s).recognitionRef = none)
  ∧ (∀ (handle : Recognition) (s : AppState),
    (fireOnEnd handle s).listening = false
    ∧ (fireOnEnd handle s).recognitionRef = s.recognitionRef)
  ∧ (∀ (s : AppState),
    stopListening { s with recognitionRef := none, listening := false }
      = { s with recognitionRef := none, listening := false })
  ∧ (∀ (handle : Recognition) (s : AppState),
    fireOnError handle (stopListening { s with recognitionRef := some handle })
      = stopListening { s with recognitionRef := some handle }
    ∧ fireOnEnd handle (stopListening { s with recognitionRef := some handle })
      = stopListening { s with recognitionRef := some handle }) := by
  refine ⟨?_, ?_, ?_, ?_⟩
  · intro handle s
    cases h : s.recognitionRef <;>
      simp [fireOnError, sourceEnded, stopListening, h]
  · intro handle s
    exact ⟨rfl, rfl⟩
  · intro s
    rfl
  · intro handle s
    constructor <;>
      simp [fireOnError, fireOnEnd, sourceEnded, stopListening, filter_ne_id_idem]

/-- C7: after a valid submission, a success response with the given
translated text and relative audio path puts the session in the succeeded
shape: translated equals the translated text of the response, audioUrl
equals the backend base address concatenated with the relative path,
loading is off and no alert is raised; the submission itself had issued
the request with the transcript, the chosen target language and auto as
source language. -/
theorem success_sets_result (s : AppState) (t u : String)
    (h : ¬ jsTrim s.transcript = "") :
  (translateBegin s).1
    = TranslateBeginOutcome.requestIssued ⟨s.transcript, s.targetLang, "auto"⟩
  ∧ (translateComplete (translateBegin s).2 (TranslateResponse.success t u)).1.translated = t
  ∧ (translateComplete (translateBegin s).2 (TranslateResponse.success t u)).1.audioUrl
    = BACKEND ++ u
  ∧ (translateComplete (translateBegin s).2 (TranslateResponse.success t u)).1.loading = false
  ∧ (translateComplete (translateBegin s).2 (TranslateResponse.success t u)).2 = none := by
  refine ⟨?_, rfl, rfl, rfl, rfl⟩
  simp [translateBegin, h]

/-- C7 witness: the spec scenario: submitting hello world towards fr
against a service answering bonjour le monde with audio path /audio/1.mp3
yields translated bonjour le monde and the resolved audio address
http://127.0.0.1:8000/audio/1.mp3. -/
theorem success_sets_result_witness :
  ¬ jsTrim demoSpoken.transcript = ""
  ∧ BACKEND ++ "/audio/1.mp3" = "http://127.0.0.1:8000/audio/1.mp3"
  ∧ ((translateBegin demoSpoken).1
      = TranslateBeginOutcome.requestIssued
          ⟨demoSpoken.transcript, demoSpoken.targetLang, "auto"⟩
    ∧ (translateComplete (translateBegin demoSpoken).2
        (TranslateResponse.success "bonjour le monde" "/audio/1.mp3")).1.translated
      = "bonjour le monde"
    ∧ (translateComplete (translateBegin demoSpoken).2
        (TranslateResponse.success "bonjour le monde" "/audio/1.mp3")).1.audioUrl
      = BACKEND ++ "/audio/1.mp3"
    ∧ (translateComplete (translateBegin demoSpoken).2
        (TranslateResponse.success "bonjour le monde" "/audio/1.mp3")).1.loading = false
    ∧ (translateComplete (translateBegin demoSpoken).2
        (TranslateResponse.success "bonjour le monde" "/audio/1.mp3")).2 = none) :=
  ⟨by decide, by decide,
    success_sets_result demoSpoken "bonjour le monde" "/audio/1.mp3" (by decide)⟩

/-- C8: after a valid submission (which already cleared the previous
translated text and audio reference), a failed response leaves those
fields cleared and only turns loading off, and the surfaced error message
is the error field of the response body when one is present and non-empty,
the generic translation-failure message when the body carries none, and
the generic server-error message on a transport error; the failure itself
never restores or modifies the previous result. -/
theorem failure_sets_error (s : AppState) (e : String)
    (h : ¬ jsTrim s.transcript = "") (he : ¬ e = "") :
  ((translateBegin s).2.translated = "" ∧ (translateBegin s).2.audioUrl = "")
  ∧ translateComplete (translateBegin s).2 (TranslateResponse.httpError (some e))
    = ({ (translateBegin s).2 with loading := false }, some e)
  ∧ translateComplete (translateBegin s).2 (TranslateResponse.httpError none)
    = ({ (translateBegin s).2 with loading := false }, some "Translation failed.")
  ∧ translateComplete (translateBegin s).2 TranslateResponse.transportError
    = ({ (translateBegin s).2 with loading := false },
        some "Server error. Is the backend running?") := by
  refine ⟨⟨?_, ?_⟩, ?_, rfl, rfl⟩
  · simp [translateBegin, h]
  · simp [translateBegin, h]
  · simp [translateComplete, he]

/-- C8 witness: the spec scenario: submitting hello towards fr against a
service answering HTTP 500 with body error tts failed yields the alert
message tts failed while translated and audioUrl stay cleared. -/
theorem failure_sets_error_witness :
  ¬ jsTrim demoReady.transcript = ""
  ∧ ¬ ("tts failed" : String) = ""
  ∧ (((translateBegin demoReady).2.translated = ""
      ∧ (translateBegin demoReady).2.audioUrl = "")
    ∧ translateComplete (translateBegin demoReady).2
        (TranslateResponse.httpError (some "tts failed"))
      = ({ (translateBegin demoReady).2 with loading := false }, some "tts failed")
    ∧ translateComplete (translateBegin demoReady).2 (TranslateResponse.httpError none)
      = ({ (translateBegin demoReady).2 with loading := false },
          some "Translation failed.")
    ∧ translateComplete (translateBegin demoReady).2 TranslateResponse.transportError
      = ({ (translateBegin demoReady).2 with loading := false },
          some "Server error. Is the backend running?")) :=
  ⟨by decide, by decide, failure_sets_error demoReady "tts failed" (by decide) (by decide)⟩

end HealthcareTranslator
